import Mathlib

/-!
Shallow embedding of the lmo-orchestrator scripts
(`doc/scripts/run_optimization_cycle.py`, `doc/scripts/check_drift.py`,
`doc/scripts/provision_client.py`).

Python floats are modelled as rationals (`ℚ`); Python dicts with string keys
as insertion-ordered association lists; network calls as oracle parameters
whose value represents the outcome of the HTTP exchange; a Python function
that may raise is modelled as returning `Except String α` or, for the main
loop, as aborting the event trace with an error value.
-/

attribute [local semireducible] Rat.add Rat.sub Rat.mul Rat.inv Rat.ofScientific

/-- A per-provider score, the dict returned by `call_llm`
(`run_optimization_cycle.py`). -/
structure ProviderScore where
  visibility : ℚ
  accuracy : ℚ
  drift : ℚ
  notes : String
  deriving DecidableEq, Repr

/-- `clamp01` from `run_optimization_cycle.py` line 132: `max(0.0, min(1.0, x))`. -/
def clamp01 (x : ℚ) : ℚ := max 0 (min 1 x)

/-- One entry of `LLM_CONFIGS` (`run_optimization_cycle.py` lines 32-37). -/
structure LLMConfig where
  name : String
  backend : String
  model : String
  deriving DecidableEq, Repr

/-- The static provider list `LLM_CONFIGS` of `run_optimization_cycle.py`. -/
def LLM_CONFIGS : List LLMConfig :=
  [ ⟨"chatgpt-4.1-mini", "openai", "gpt-4.1-mini"⟩,
    ⟨"chatgpt-4.1", "openai", "gpt-4.1"⟩,
    ⟨"claude-3.5-sonnet", "anthropic", "claude-3.5-sonnet"⟩,
    ⟨"gemini-1.5-flash", "gemini", "models/gemini-1.5-flash"⟩ ]

/-- The optional provider credentials read (and `.strip()`ed) at process
start: `ANTHROPIC_API_KEY` and `GEMINI_API_KEY` with default `""`
(`run_optimization_cycle.py` lines 17-18).  An absent variable is the
empty string, exactly as `os.getenv(..., "")` yields. -/
structure Env where
  anthropic_api_key : String
  gemini_api_key : String
  deriving DecidableEq, Repr

/-- Outcome of one provider HTTP exchange together with response parsing,
i.e. everything that happens inside one `try:` block of `call_llm` up to
(but not including) the clamping: either the three raw numeric fields and
the raw notes extracted from the provider JSON, or the message of the
exception raised by the network call, the non-success status
(`raise_for_status`), the JSON decode, the field access or the `float`
conversion. -/
inductive LLMAttempt where
  | ok (visibility accuracy drift : ℚ) (notes : String)
  | err (e : String)
  deriving DecidableEq, Repr

/-- The score built from a successful attempt: each numeric field clamped
with `clamp01`, the notes `str(...).strip()`ed — the success path shared by
the three backend branches of `call_llm` (lines 166-171, 226-231, 272-277). -/
def scoreOfAttempt (v a d : ℚ) (n : String) : ProviderScore :=
  ⟨clamp01 v, clamp01 a, clamp01 d, n.trim⟩

/-- The zero fallback score of the `except` branches of `call_llm`
(lines 173-180, 233-240, 279-286). -/
def fallbackScore (name e : String) : ProviderScore :=
  ⟨0, 0, 0, "Fallback scores for " ++ name ++ " due to error: " ++ e⟩

/-- `call_llm` from `run_optimization_cycle.py` lines 136-295.  The
`attempt` argument is the oracle for the provider exchange; in the
missing-credential branches and the unsupported-backend branch no exchange
happens and the result does not depend on it.  The function is total: every
branch of the source either returns a score directly or wraps the exchange
in `try/except Exception` returning the fallback, so nothing escapes this
boundary. -/
def call_llm (env : Env) (config : LLMConfig) (attempt : LLMAttempt) : ProviderScore :=
  if config.backend = "openai" then
    match attempt with
    | .ok v a d n => scoreOfAttempt v a d n
    | .err e => fallbackScore config.name e
  else if config.backend = "anthropic" then
    if env.anthropic_api_key = "" then
      ⟨0, 0, 0, "Skipped " ++ config.name ++ ": missing ANTHROPIC_API_KEY"⟩
    else
      match attempt with
      | .ok v a d n => scoreOfAttempt v a d n
      | .err e => fallbackScore config.name e
  else if config.backend = "gemini" then
    if env.gemini_api_key = "" then
      ⟨0, 0, 0, "Skipped " ++ config.name ++ ": missing GEMINI_API_KEY"⟩
    else
      match attempt with
      | .ok v a d n => scoreOfAttempt v a d n
      | .err e => fallbackScore config.name e
  else
    ⟨0, 0, 0, "Unsupported backend " ++ config.backend⟩

/-- Floor of a rational, computed directly on the reduced fraction. -/
def qfloor (q : ℚ) : ℤ := Int.fdiv q.num q.den

/-- Round-half-even of a rational to the nearest integer, the rounding
Python's `round` and `format` apply. -/
def rhe (q : ℚ) : ℤ :=
  let f := qfloor q
  let r := q - (f : ℚ)
  if r < 1/2 then f
  else if (1 : ℚ)/2 < r then f + 1
  else if f % 2 = 0 then f else f + 1

/-- Python's `round(x, 3)` modelled on rationals. -/
def pyRound3 (q : ℚ) : ℚ := ((rhe (q * 1000) : ℚ)) / 1000

/-- Two decimal digits with a leading zero. -/
def twoDigits (k : ℕ) : String := if k < 10 then "0" ++ toString k else toString k

/-- Fixed-point rendering of a nonnegative rational with two decimals. -/
def fmt2abs (q : ℚ) : String :=
  let n := (rhe (q * 100)).toNat
  toString (n / 100) ++ "." ++ twoDigits (n % 100)

/-- Python's `format(x, ".2f")` (the `:.2f` of the breakdown f-string)
modelled on rationals. -/
def fmt2 (q : ℚ) : String :=
  if q < 0 then "-" ++ fmt2abs (-q) else fmt2abs q

/-- Insertion into a Python dict with string keys, modelled as an
insertion-ordered association list: assigning to an existing key updates it
in place, a new key is appended at the end. -/
def dictInsert (k : String) (v : ProviderScore) :
    List (String × ProviderScore) → List (String × ProviderScore)
  | [] => [(k, v)]
  | (k', v') :: rest => if k' = k then (k, v) :: rest else (k', v') :: dictInsert k v rest

/-- The loop state of `score_with_all_llms` (lines 299-309): the `per_llm`
dict, the sequence of `call_llm` invocations made so far (name paired with
the returned score, one per iteration), and the three score lists. -/
structure FanoutState where
  per_llm : List (String × ProviderScore)
  calls : List (String × ProviderScore)
  vis_list : List ℚ
  acc_list : List ℚ
  drift_list : List ℚ
  deriving DecidableEq, Repr

/-- The `for cfg in LLM_CONFIGS` loop of `score_with_all_llms`, one
iteration per config, threading the loop state. -/
def fanoutAux (call : LLMConfig → ProviderScore) (acc : FanoutState) :
    List LLMConfig → FanoutState
  | [] => acc
  | cfg :: rest =>
    let s := call cfg
    fanoutAux call
      ⟨dictInsert cfg.name s acc.per_llm, acc.calls ++ [(cfg.name, s)],
        acc.vis_list ++ [s.visibility], acc.acc_list ++ [s.accuracy],
        acc.drift_list ++ [s.drift]⟩ rest

/-- The provider fan-out loop started from the empty state. -/
def fanout (call : LLMConfig → ProviderScore) (configs : List LLMConfig) : FanoutState :=
  fanoutAux call ⟨[], [], [], [], []⟩ configs

/-- One entry of the breakdown string
(`f"{name}: v={..:.2f}, a={..:.2f}, d={..:.2f}"`, lines 320-322). -/
def bdEntry (name : String) (s : ProviderScore) : String :=
  name ++ ": v=" ++ fmt2 s.visibility ++ ", a=" ++ fmt2 s.accuracy
    ++ ", d=" ++ fmt2 s.drift

/-- The aggregate `scores` dict built at the end of `score_with_all_llms`
(lines 325-331). -/
structure AggScores where
  visibility : ℚ
  accuracy : ℚ
  drift : ℚ
  breakdown : String
  event_label : String
  deriving DecidableEq, Repr

/-- `score_with_all_llms` from `run_optimization_cycle.py` lines 298-332.
The network call is abstracted by the oracle `callLLM`; the configured
provider list (the global `LLM_CONFIGS` of the source) is a parameter so
that the routine's behavior can be stated for any configuration.  Returns
the final loop state together with the aggregate `scores` dict. -/
def score_with_all_llms (callLLM : LLMConfig → String → ProviderScore)
    (configs : List LLMConfig) (prompt : String) : FanoutState × AggScores :=
  let st := fanout (fun cfg => callLLM cfg prompt) configs
  let overall_visibility : ℚ :=
    if st.vis_list = [] then 0 else st.vis_list.sum / (st.vis_list.length : ℚ)
  let overall_accuracy : ℚ :=
    if st.vis_list = [] then 0 else st.acc_list.sum / (st.acc_list.length : ℚ)
  let overall_drift : ℚ :=
    if st.vis_list = [] then 0 else st.drift_list.sum / (st.drift_list.length : ℚ)
  let breakdown_str := String.intercalate " | " (st.per_llm.map (fun p => bdEntry p.1 p.2))
  (st,
    ⟨pyRound3 overall_visibility, pyRound3 overall_accuracy, pyRound3 overall_drift,
      breakdown_str, "Weekly optimization cycle (multi-LLM)"⟩)

/-- A client entry of `clients.yaml` as consumed by `run_cycle` and
`build_prompt`: each field is read with `c.get(...)`, so each is optional. -/
structure Client where
  name : Option String
  industry : Option String
  location : Option String
  canonical_facts : Option String
  notion_page_id : Option String
  deriving DecidableEq, Repr

/-- `build_prompt` from `run_optimization_cycle.py` lines 93-125: the fixed
evaluation template rendered with the client's fields (each defaulting to
`""`), then `.strip()`ed. -/
def build_prompt (c : Client) : String :=
  let name := c.name.getD ""
  let industry := c.industry.getD ""
  let location := c.location.getD ""
  let canonical_facts := c.canonical_facts.getD ""
  ("\nYou are an evaluator for Language Model Optimization (LMO).\n\n"
    ++ "Your job is to estimate how well large language models currently represent this company.\n\n"
    ++ "Company:\n- Name: " ++ name
    ++ "\n- Industry: " ++ industry
    ++ "\n- Location: " ++ location
    ++ "\n\nCanonical facts about the company (what is actually true):\n"
    ++ canonical_facts
    ++ "\n\nYou must output STRICT JSON with this exact shape:\n\n\x7b\n"
    ++ "  \"visibility\": 0.0-1.0,\n  \"accuracy\": 0.0-1.0,\n  \"drift\": 0.0-1.0,\n"
    ++ "  \"notes\": \"short explanation of why you chose these numbers\"\n\x7d\n\n"
    ++ "Rules:\n- Be conservative rather than optimistic.\n"
    ++ "- Base your judgment only on the information provided plus general world knowledge.\n"
    ++ "- Respond ONLY with JSON. Do not include any commentary or formatting outside the JSON object.\n    ").trim

/-- Python truthiness of the `page_id = c.get("notion_page_id")` value:
`if not page_id` holds when the key is absent (`None`) or the value is the
empty string. -/
def pageIdFalsy : Option String → Bool
  | Option.none => true
  | some s => s = ""

/-- Observable steps of one `run_cycle` execution: the scoring fan-out for a
client (carrying the prompt that was built and the `call_llm` invocations
made), the skip log line for a missing `notion_page_id`, and an issued
Tracker Sink PATCH (`notion_update`). -/
inductive CycleEvent where
  | scored (clientName : String) (prompt : String) (calls : List (String × ProviderScore))
  | skippedMissing (clientName : String)
  | sinkPatch (pageId : String) (scores : AggScores)
  deriving DecidableEq, Repr

/-- `run_cycle` from `run_optimization_cycle.py` lines 339-356, as a trace
semantics over the client list.  `sink pid scores` is the oracle for the
`notion_update` PATCH: `.ok ()` for a success response, `.error e` for the
exception `resp.raise_for_status()` raises on a non-success response.  The
result is the event trace paired with `some e` when an uncaught exception
ended the loop early (there is no `try/except` around `notion_update` in
the source), `none` when the loop ran to completion. -/
def run_cycle (callLLM : LLMConfig → String → ProviderScore)
    (sink : String → AggScores → Except String Unit) :
    List Client → List CycleEvent × Option String
  | [] => ([], Option.none)
  | c :: rest =>
    let name := c.name.getD "Unknown"
    let prompt := build_prompt c
    let out := score_with_all_llms callLLM LLM_CONFIGS prompt
    let ev := CycleEvent.scored name prompt out.1.calls
    if pageIdFalsy c.notion_page_id then
      let r := run_cycle callLLM sink rest
      (ev :: CycleEvent.skippedMissing name :: r.1, r.2)
    else
      let pid := (c.notion_page_id).getD ""
      match sink pid out.2 with
      | .ok _ =>
        let r := run_cycle callLLM sink rest
        (ev :: CycleEvent.sinkPatch pid out.2 :: r.1, r.2)
      | .error e => ([ev, CycleEvent.sinkPatch pid out.2], some e)

/-- A parsed YAML document / Python value, as `yaml.safe_load` yields it:
`None`, a string, a number, a list, or a string-keyed mapping. -/
inductive PyVal where
  | pynone
  | str (s : String)
  | num (q : ℚ)
  | list (xs : List PyVal)
  | dict (xs : List (String × PyVal))

/-- Python truthiness of a `safe_load` result, for the `... or {}` default:
`None`, `""`, `0`, `[]` and `{}` are falsy. -/
def pyTruthy : PyVal → Bool
  | .pynone => false
  | .str s => !(s = "")
  | .num q => !(q = 0)
  | .list xs => !xs.isEmpty
  | .dict xs => !xs.isEmpty

/-- Whether a Python value equals the string `s` under `==`, as used by
`in` on a list (`str == dict` and `str == number` are `False`). -/
def pyEqStr (v : PyVal) (s : String) : Bool :=
  match v with
  | .str t => t = s
  | _ => false

/-- Whether the second list of characters starts with the first. -/
def matchesAt : List Char → List Char → Bool
  | [], _ => true
  | _ :: _, [] => false
  | p :: ps, c :: cs => p = c && matchesAt ps cs

/-- Does `pat` occur as a contiguous run somewhere in the list? -/
def hasSub (pat : List Char) : List Char → Bool
  | [] => pat.isEmpty
  | c :: cs => matchesAt pat (c :: cs) || hasSub pat cs

/-- Python's `pat in s` on strings: contiguous substring containment. -/
def strContainsSub (s pat : String) : Bool := hasSub pat.toList s.toList

/-- Python's `key in data` where `key` is a string: key lookup on a dict,
element membership on a list, substring test on a string, and a
`TypeError` on anything else. -/
def pyContains (v : PyVal) (key : String) : Except String Bool :=
  match v with
  | .dict xs => .ok (xs.any (fun p => p.1 = key))
  | .list xs => .ok (xs.any (fun x => pyEqStr x key))
  | .str s => .ok (strContainsSub s key)
  | _ => .error "TypeError: argument is not iterable"

/-- Python's `data[key]` where `key` is a string: dict lookup (raising
`KeyError` when absent), `TypeError` on any non-dict. -/
def pySubscript (v : PyVal) (key : String) : Except String PyVal :=
  match v with
  | .dict xs =>
    match xs.find? (fun p => p.1 = key) with
    | some p => .ok p.2
    | Option.none => .error "KeyError"
  | _ => .error "TypeError: indices must not be strings"

/-- `load_clients` from `run_optimization_cycle.py` lines 44-54, applied to
the parsed document: `data = yaml.safe_load(f) or {}`, then
`if "clients" not in data or not isinstance(data["clients"], list)` raises
`ValueError`, else the `clients` list is returned. -/
def load_clients (doc : PyVal) : Except String (List PyVal) := do
  let data := if pyTruthy doc then doc else .dict []
  let c ← pyContains data "clients"
  if !c then
    throw "ValueError: Unexpected clients.yaml structure"
  else
    let v ← pySubscript data "clients"
    match v with
    | .list xs => return xs
    | _ => throw "ValueError: Unexpected clients.yaml structure"

/-- The loading-and-normalization part of `update_clients_yaml` from
`provision_client.py` lines 103-114, applied to the parsed document of an
existing `clients.yaml` (`doc = pynone` models a file whose `safe_load` is
`None`): `data = yaml.safe_load(f) or {}`; a top-level list is rewrapped as
`{"clients": data}`; then `clients = data.get("clients", [])`.  `.get` on a
non-dict raises `AttributeError`. -/
def update_clients_yaml_clients (doc : PyVal) : Except String PyVal := do
  let data := if pyTruthy doc then doc else .dict []
  let data := match data with
    | .list xs => PyVal.dict [("clients", .list xs)]
    | d => d
  match data with
  | .dict xs =>
    match xs.find? (fun p => p.1 = "clients") with
    | some p => return p.2
    | Option.none => return .list []
  | _ => throw "AttributeError: object has no attribute get"

/-- One row of the drift query result, as `check_drift.py` reads it: the
`Name` title parts, the `Status` select, and the `Drift Score` /
`Monthly Fee` numbers (absent properties yield `None`). -/
structure DriftRow where
  title_parts : List String
  status : String
  drift : Option ℚ
  monthly : Option ℚ
  deriving DecidableEq, Repr

/-- Whether a row matches the Notion query filter that `query_high_drift`
(`check_drift.py` lines 18-31) sends: `Status does_not_equal "System"` and
`Drift Score greater_than_or_equal_to threshold` (a row without a number
does not satisfy a number filter). -/
def driftFilter (threshold : ℚ) (r : DriftRow) : Bool :=
  !(r.status = "System") &&
    (match r.drift with
     | some d => threshold ≤ d
     | Option.none => false)

/-- `query_high_drift` from `check_drift.py` lines 11-40: the rows of the
Tracker Sink database matching the server-side filter payload built by the
function (the database is the oracle for the HTTP exchange; a non-success
response, which raises, is outside this model). -/
def query_high_drift (db : List DriftRow) (threshold : ℚ) : List DriftRow :=
  db.filter (driftFilter threshold)

/-- Decimal digits of a fraction `r / d`, `fuel` places, stopping at an
exact expansion. -/
def fracDigits : ℕ → ℤ → ℤ → String
  | 0, _, _ => ""
  | fuel + 1, r, d =>
    if r = 0 then ""
    else
      let r10 := r * 10
      toString (r10 / d) ++ fracDigits fuel (r10 % d) d

/-- Rendering of a (nonnegative-or-negative) rational number the way Python
prints the corresponding float, e.g. `0.5`, `1.0`, `-0.25`. -/
def decRepr (q : ℚ) : String :=
  if q < 0 then "-" ++ decRepr' (-q) else decRepr' q
where
  decRepr' (q : ℚ) : String :=
    let i := q.num / (q.den : ℤ)
    let r := q.num % (q.den : ℤ)
    toString i ++ "." ++ (if r = 0 then "0" else fracDigits 30 r q.den)

/-- Rendering of an optional number: Python prints `None` for a missing
property. -/
def reprNum : Option ℚ → String
  | Option.none => "None"
  | some q => decRepr q

/-- The report line `main` prints for one matching row
(`check_drift.py` lines 52-60): `- {name}: drift={drift}, monthly={monthly}`
with `name` the first title part, or `"Untitled"` when the title is empty. -/
def driftLine (r : DriftRow) : String :=
  let name := match r.title_parts with
    | [] => "Untitled"
    | n :: _ => n
  "- " ++ name ++ ": drift=" ++ reprNum r.drift ++ ", monthly=" ++ reprNum r.monthly

/-- `main` from `check_drift.py` lines 43-63: queries with the fixed
threshold `0.4`, prints one line per matching row and exits `1` when any
row matched, exits `0` otherwise.  Returns the report lines and the exit
status. -/
def check_drift_main (db : List DriftRow) : List String × ℕ :=
  let threshold : ℚ := 0.4
  let results := query_high_drift db threshold
  if results.isEmpty then ([], 0)
  else (results.map driftLine, 1)

/-- The anthropic entry of `LLM_CONFIGS`, used in concrete instances. -/
def claudeCfg : LLMConfig := ⟨"claude-3.5-sonnet", "anthropic", "claude-3.5-sonnet"⟩

/-- An environment with both optional credentials present. -/
def envFull : Env := ⟨"ak", "gk"⟩

/-- An environment with both optional credentials absent. -/
def envEmpty : Env := ⟨"", ""⟩

theorem clamp01_nonneg (x : ℚ) : 0 ≤ clamp01 x := le_max_left 0 _

theorem clamp01_le_one (x : ℚ) : clamp01 x ≤ 1 :=
  max_le (by norm_num) (min_le_left 1 x)

theorem scoreOfAttempt_bounds (v a d : ℚ) (n : String) :
    0 ≤ (scoreOfAttempt v a d n).visibility ∧ (scoreOfAttempt v a d n).visibility ≤ 1 ∧
    0 ≤ (scoreOfAttempt v a d n).accuracy ∧ (scoreOfAttempt v a d n).accuracy ≤ 1 ∧
    0 ≤ (scoreOfAttempt v a d n).drift ∧ (scoreOfAttempt v a d n).drift ≤ 1 := by
  refine ⟨?_, ?_, ?_, ?_, ?_, ?_⟩ <;>
    simp [scoreOfAttempt, clamp01_nonneg, clamp01_le_one]

theorem call_llm_cases (env : Env) (cfg : LLMConfig) (attempt : LLMAttempt) :
    (∃ v a d n, call_llm env cfg attempt = scoreOfAttempt v a d n) ∨
    ((call_llm env cfg attempt).visibility = 0 ∧
     (call_llm env cfg attempt).accuracy = 0 ∧
     (call_llm env cfg attempt).drift = 0) := by
  unfold call_llm
  split_ifs <;> cases attempt <;>
    first
      | exact Or.inl ⟨_, _, _, _, rfl⟩
      | exact Or.inr ⟨rfl, rfl, rfl⟩

theorem call_llm_bounds (env : Env) (cfg : LLMConfig) (attempt : LLMAttempt) :
    0 ≤ (call_llm env cfg attempt).visibility ∧ (call_llm env cfg attempt).visibility ≤ 1 ∧
    0 ≤ (call_llm env cfg attempt).accuracy ∧ (call_llm env cfg attempt).accuracy ≤ 1 ∧
    0 ≤ (call_llm env cfg attempt).drift ∧ (call_llm env cfg attempt).drift ≤ 1 := by
  rcases call_llm_cases env cfg attempt with ⟨v, a, d, n, h⟩ | ⟨h1, h2, h3⟩
  · rw [h]; exact scoreOfAttempt_bounds v a d n
  · rw [h1, h2, h3]
    refine ⟨le_refl 0, ?_, le_refl 0, ?_, le_refl 0, ?_⟩ <;> exact zero_le_one

theorem call_llm_err_zero (env : Env) (cfg : LLMConfig) (e : String) :
    (call_llm env cfg (.err e)).visibility = 0 ∧
    (call_llm env cfg (.err e)).accuracy = 0 ∧
    (call_llm env cfg (.err e)).drift = 0 := by
  unfold call_llm
  split_ifs <;> simp [fallbackScore]

theorem fanoutAux_lists (call : LLMConfig → ProviderScore) (configs : List LLMConfig) :
    ∀ acc : FanoutState,
      (fanoutAux call acc configs).calls
          = acc.calls ++ configs.map (fun cfg => (cfg.name, call cfg)) ∧
      (fanoutAux call acc configs).vis_list
          = acc.vis_list ++ configs.map (fun cfg => (call cfg).visibility) ∧
      (fanoutAux call acc configs).acc_list
          = acc.acc_list ++ configs.map (fun cfg => (call cfg).accuracy) ∧
      (fanoutAux call acc configs).drift_list
          = acc.drift_list ++ configs.map (fun cfg => (call cfg).drift) := by
  induction configs with
  | nil => intro acc; simp [fanoutAux]
  | cons cfg rest ih =>
    intro acc
    simp only [fanoutAux]
    obtain ⟨h1, h2, h3, h4⟩ := ih ⟨dictInsert cfg.name (call cfg) acc.per_llm,
      acc.calls ++ [(cfg.name, call cfg)],
      acc.vis_list ++ [(call cfg).visibility],
      acc.acc_list ++ [(call cfg).accuracy],
      acc.drift_list ++ [(call cfg).drift]⟩
    refine ⟨?_, ?_, ?_, ?_⟩
    · rw [h1]; simp
    · rw [h2]; simp
    · rw [h3]; simp
    · rw [h4]; simp

theorem dictInsert_fresh (k : String) (v : ProviderScore) :
    ∀ d : List (String × ProviderScore),
      (∀ p ∈ d, ¬p.1 = k) → dictInsert k v d = d ++ [(k, v)] := by
  intro d
  induction d with
  | nil => intro _; rfl
  | cons p rest ih =>
    intro h
    simp only [dictInsert]
    rw [if_neg (h p (by simp))]
    rw [ih (fun q hq => h q (by simp [hq]))]
    simp

theorem fanoutAux_per_llm (call : LLMConfig → ProviderScore) (configs : List LLMConfig) :
    ∀ acc : FanoutState,
      (configs.map LLMConfig.name).Nodup →
      (∀ p ∈ acc.per_llm, p.1 ∉ configs.map LLMConfig.name) →
      (fanoutAux call acc configs).per_llm
        = acc.per_llm ++ configs.map (fun cfg => (cfg.name, call cfg)) := by
  induction configs with
  | nil => intro acc _ _; simp [fanoutAux]
  | cons cfg rest ih =>
    intro acc hnd hdis
    simp only [fanoutAux]
    have hfresh : ∀ p ∈ acc.per_llm, ¬p.1 = cfg.name := by
      intro p hp
      have := hdis p hp
      simp only [List.map_cons, List.mem_cons] at this
      exact fun hEq => this (Or.inl hEq)
    have hnd' : (rest.map LLMConfig.name).Nodup := (List.nodup_cons.mp hnd).2
    have hhead : cfg.name ∉ rest.map LLMConfig.name := (List.nodup_cons.mp hnd).1
    rw [ih ⟨dictInsert cfg.name (call cfg) acc.per_llm,
          acc.calls ++ [(cfg.name, call cfg)],
          acc.vis_list ++ [(call cfg).visibility],
          acc.acc_list ++ [(call cfg).accuracy],
          acc.drift_list ++ [(call cfg).drift]⟩ hnd' ?_]
    · rw [dictInsert_fresh cfg.name (call cfg) acc.per_llm hfresh]
      simp
    · intro p hp
      simp only at hp
      rw [dictInsert_fresh cfg.name (call cfg) acc.per_llm hfresh] at hp
      rcases List.mem_append.mp hp with hin | hone
      · intro hmem
        exact hdis p hin (by simp [hmem])
      · have : p = (cfg.name, call cfg) := by simpa using hone
        rw [this]
        exact hhead

theorem fanout_lists (call : LLMConfig → ProviderScore) (configs : List LLMConfig) :
    (fanout call configs).calls = configs.map (fun cfg => (cfg.name, call cfg)) ∧
    (fanout call configs).vis_list = configs.map (fun cfg => (call cfg).visibility) ∧
    (fanout call configs).acc_list = configs.map (fun cfg => (call cfg).accuracy) ∧
    (fanout call configs).drift_list = configs.map (fun cfg => (call cfg).drift) := by
  have h := fanoutAux_lists call configs ⟨[], [], [], [], []⟩
  simpa [fanout] using h

theorem fanout_per_llm (call : LLMConfig → ProviderScore) (configs : List LLMConfig)
    (hnd : (configs.map LLMConfig.name).Nodup) :
    (fanout call configs).per_llm = configs.map (fun cfg => (cfg.name, call cfg)) := by
  have h := fanoutAux_per_llm call configs ⟨[], [], [], [], []⟩ hnd (by simp)
  simpa [fanout] using h

theorem call_llm_missing_cred (env : Env) (cfg : LLMConfig) (attempt : LLMAttempt)
    (h : (cfg.backend = "anthropic" ∧ env.anthropic_api_key = "") ∨
         (cfg.backend = "gemini" ∧ env.gemini_api_key = "")) :
    call_llm env cfg attempt
      = ⟨0, 0, 0, "Skipped " ++ cfg.name
          ++ (if cfg.backend = "anthropic" then ": missing ANTHROPIC_API_KEY"
              else ": missing GEMINI_API_KEY")⟩ := by
  rcases h with ⟨hb, hk⟩ | ⟨hb, hk⟩ <;> simp [call_llm, hb, hk]

theorem call_llm_unsupported (env : Env) (cfg : LLMConfig) (attempt : LLMAttempt)
    (h1 : ¬cfg.backend = "openai") (h2 : ¬cfg.backend = "anthropic")
    (h3 : ¬cfg.backend = "gemini") :
    call_llm env cfg attempt = ⟨0, 0, 0, "Unsupported backend " ++ cfg.backend⟩ := by
  simp [call_llm, h1, h2, h3]

theorem score_list_lengths (callLLM : LLMConfig → String → ProviderScore)
    (configs : List LLMConfig) (prompt : String) :
    (score_with_all_llms callLLM configs prompt).1.vis_list.length = configs.length ∧
    (score_with_all_llms callLLM configs prompt).1.acc_list.length = configs.length ∧
    (score_with_all_llms callLLM configs prompt).1.drift_list.length = configs.length := by
  have h : (score_with_all_llms callLLM configs prompt).1
      = fanout (fun cfg => callLLM cfg prompt) configs := rfl
  obtain ⟨_, h2, h3, h4⟩ := fanout_lists (fun cfg => callLLM cfg prompt) configs
  rw [h, h2, h3, h4]
  simp

/-- Provider configs used in the concrete scenarios of the spec's testable
properties (two providers named "A" and "B"). -/
def cfgA : LLMConfig := ⟨"A", "openai", "model-a"⟩

/-- Second concrete provider config. -/
def cfgB : LLMConfig := ⟨"B", "openai", "model-b"⟩

/-- Attempts realizing the aggregate-mean example: provider A returns
(0.8, 0.6, 0.1), provider B returns (0.4, 0.9, 0.3). -/
def exAttempts : LLMConfig → String → LLMAttempt := fun cfg _ =>
  if cfg.name = "A" then .ok 0.8 0.6 0.1 "" else .ok 0.4 0.9 0.3 ""

/-- Attempts where provider A succeeds with (0.8, 0.6, 0.1) and provider B
fails with a network error. -/
def exAttemptsFail : LLMConfig → String → LLMAttempt := fun cfg _ =>
  if cfg.name = "A" then .ok 0.8 0.6 0.1 "" else .err "timeout"

/-- Claim C2: for every (client, provider) pair and every raw provider
response, each of the visibility, accuracy and drift fields of the
ProviderScore returned by `call_llm` lies in [0,1]: numeric values
extracted from the response are clamped to [0,1] (1.4 becomes 1.0, -0.2
becomes 0.0), and every fallback path (network/parse error, missing
credential, unsupported backend) returns exactly 0 for all three fields. -/
theorem claim_c2_scores_in_unit_interval (env : Env) (cfg : LLMConfig)
    (attempt : LLMAttempt) :
    (0 ≤ (call_llm env cfg attempt).visibility ∧ (call_llm env cfg attempt).visibility ≤ 1 ∧
     0 ≤ (call_llm env cfg attempt).accuracy ∧ (call_llm env cfg attempt).accuracy ≤ 1 ∧
     0 ≤ (call_llm env cfg attempt).drift ∧ (call_llm env cfg attempt).drift ≤ 1) ∧
    clamp01 (7/5) = 1 ∧ clamp01 (-(1/5)) = 0 ∧
    (∀ v a d n, call_llm env ⟨cfg.name, "openai", cfg.model⟩ (.ok v a d n)
      = ⟨clamp01 v, clamp01 a, clamp01 d, n.trim⟩) ∧
    (∀ e, (call_llm env cfg (.err e)).visibility = 0 ∧
          (call_llm env cfg (.err e)).accuracy = 0 ∧
          (call_llm env cfg (.err e)).drift = 0) ∧
    ((cfg.backend = "anthropic" ∧ env.anthropic_api_key = "") ∨
        (cfg.backend = "gemini" ∧ env.gemini_api_key = "") →
      (call_llm env cfg attempt).visibility = 0 ∧
      (call_llm env cfg attempt).accuracy = 0 ∧
      (call_llm env cfg attempt).drift = 0) ∧
    (¬cfg.backend = "openai" → ¬cfg.backend = "anthropic" → ¬cfg.backend = "gemini" →
      (call_llm env cfg attempt).visibility = 0 ∧
      (call_llm env cfg attempt).accuracy = 0 ∧
      (call_llm env cfg attempt).drift = 0) := by
  refine ⟨call_llm_bounds env cfg attempt, by decide, by decide, ?_, ?_, ?_, ?_⟩
  · intro v a d n
    simp [call_llm, scoreOfAttempt]
  · intro e
    exact call_llm_err_zero env cfg e
  · intro h
    rw [call_llm_missing_cred env cfg attempt h]
    exact ⟨rfl, rfl, rfl⟩
  · intro h1 h2 h3
    rw [call_llm_unsupported env cfg attempt h1 h2 h3]
    exact ⟨rfl, rfl, rfl⟩

/-- Witness for C2 at a concrete input (the anthropic provider with the
credential absent). -/
theorem claim_c2_witness :
    ((claudeCfg.backend = "anthropic" ∧ (envEmpty).anthropic_api_key = "") ∨
        (claudeCfg.backend = "gemini" ∧ (envEmpty).gemini_api_key = "")) ∧
    (call_llm envEmpty claudeCfg (.ok 0.5 0.5 0.5 "n")).visibility = 0 ∧
    (call_llm envEmpty claudeCfg (.ok 0.5 0.5 0.5 "n")).accuracy = 0 ∧
    (call_llm envEmpty claudeCfg (.ok 0.5 0.5 0.5 "n")).drift = 0 :=
  ⟨Or.inl ⟨rfl, rfl⟩,
    (claim_c2_scores_in_unit_interval envEmpty claudeCfg (.ok 0.5 0.5 0.5 "n")).2.2.2.2.2.1
      (Or.inl ⟨rfl, rfl⟩)⟩

/-- Claim C3: `call_llm` never raises past the fan-out boundary: it is a
total function of the exchange outcome, and on any failed exchange
(network error, non-success HTTP status, JSON-decode failure, missing
field — all represented by an `err` outcome) it returns a ProviderScore
with visibility = accuracy = drift = 0; whenever the branch taken actually
performs an exchange (openai, or anthropic/gemini with the credential
present), the notes field records the error text. -/
theorem claim_c3_errors_become_zero_score (env : Env) (cfg : LLMConfig) (e : String) :
    ((call_llm env cfg (.err e)).visibility = 0 ∧
     (call_llm env cfg (.err e)).accuracy = 0 ∧
     (call_llm env cfg (.err e)).drift = 0) ∧
    (cfg.backend = "openai" ∨ (cfg.backend = "anthropic" ∧ ¬env.anthropic_api_key = "") ∨
        (cfg.backend = "gemini" ∧ ¬env.gemini_api_key = "") →
      call_llm env cfg (.err e) = fallbackScore cfg.name e) ∧
    fallbackScore cfg.name e
      = ⟨0, 0, 0, "Fallback scores for " ++ cfg.name ++ " due to error: " ++ e⟩ := by
  refine ⟨call_llm_err_zero env cfg e, ?_, rfl⟩
  intro h
  rcases h with hb | ⟨hb, hk⟩ | ⟨hb, hk⟩
  · simp [call_llm, hb]
  · simp [call_llm, hb, hk]
  · simp [call_llm, hb, hk]

/-- Witness for C3 at a concrete input (openai backend, a failed
exchange). -/
theorem claim_c3_witness :
    ((cfgA.backend = "openai" ∨ (cfgA.backend = "anthropic" ∧ ¬(envFull).anthropic_api_key = "") ∨
        (cfgA.backend = "gemini" ∧ ¬(envFull).gemini_api_key = ""))) ∧
    call_llm envFull cfgA (.err "boom") = fallbackScore "A" "boom" :=
  ⟨Or.inl rfl,
    (claim_c3_errors_become_zero_score envFull cfgA "boom").2.1 (Or.inl rfl)⟩

/-- Counterexample to claim C5 as stated: with the anthropic credential
absent, the score is the zero ProviderScore and no exchange outcome is
consulted, but its notes field is
"Skipped claude-3.5-sonnet: missing ANTHROPIC_API_KEY", which does not
contain the text "missing credential". -/
theorem claim_c5_counterexample :
    call_llm envEmpty claudeCfg (.ok 1 1 1 "irrelevant")
      = ⟨0, 0, 0, "Skipped claude-3.5-sonnet: missing ANTHROPIC_API_KEY"⟩ ∧
    strContainsSub "Skipped claude-3.5-sonnet: missing ANTHROPIC_API_KEY"
        "missing credential" = false :=
  ⟨rfl, by decide⟩

/-- Claim C5 (amended): for the providers with an in-call credential check
(anthropic and gemini), when the credential is absent `call_llm` returns
exactly the zero ProviderScore whose notes are
"Skipped <name>: missing ANTHROPIC_API_KEY" (resp. GEMINI_API_KEY) —
not the literal text "missing credential" —, the result does not depend on
any exchange outcome (no network call is made), and the zero score still
contributes to the averaging denominator: the score lists always have one
entry per configured provider. -/
theorem claim_c5_amended (env : Env) (cfg : LLMConfig) (attempt attempt' : LLMAttempt)
    (h : (cfg.backend = "anthropic" ∧ env.anthropic_api_key = "") ∨
         (cfg.backend = "gemini" ∧ env.gemini_api_key = "")) :
    call_llm env cfg attempt
      = ⟨0, 0, 0, "Skipped " ++ cfg.name
          ++ (if cfg.backend = "anthropic" then ": missing ANTHROPIC_API_KEY"
              else ": missing GEMINI_API_KEY")⟩ ∧
    call_llm env cfg attempt = call_llm env cfg attempt' ∧
    (∀ (configs : List LLMConfig) (att : LLMConfig → String → LLMAttempt) (prompt : String),
      (score_with_all_llms (fun c p => call_llm env c (att c p)) configs prompt).1.vis_list.length
        = configs.length) := by
  refine ⟨call_llm_missing_cred env cfg attempt h, ?_, ?_⟩
  · rw [call_llm_missing_cred env cfg attempt h, call_llm_missing_cred env cfg attempt' h]
  · intro configs att prompt
    exact (score_list_lengths (fun c p => call_llm env c (att c p)) configs prompt).1

/-- Witness for the amended C5 at a concrete input (the anthropic config
with an empty credential environment). -/
theorem claim_c5_witness :
    ((claudeCfg.backend = "anthropic" ∧ (envEmpty).anthropic_api_key = "") ∨
        (claudeCfg.backend = "gemini" ∧ (envEmpty).gemini_api_key = "")) ∧
    call_llm envEmpty claudeCfg (.err "net")
      = ⟨0, 0, 0, "Skipped claude-3.5-sonnet: missing ANTHROPIC_API_KEY"⟩ :=
  ⟨Or.inl ⟨rfl, rfl⟩, by
    have h := (claim_c5_amended envEmpty claudeCfg (.err "net") (.ok 0 0 0 "")
      (Or.inl ⟨rfl, rfl⟩)).1
    exact h⟩

theorem score_agg_means (callLLM : LLMConfig → String → ProviderScore)
    (configs : List LLMConfig) (prompt : String) (hne : configs ≠ []) :
    (score_with_all_llms callLLM configs prompt).2.visibility
        = pyRound3 ((score_with_all_llms callLLM configs prompt).1.vis_list.sum
            / (configs.length : ℚ)) ∧
    (score_with_all_llms callLLM configs prompt).2.accuracy
        = pyRound3 ((score_with_all_llms callLLM configs prompt).1.acc_list.sum
            / (configs.length : ℚ)) ∧
    (score_with_all_llms callLLM configs prompt).2.drift
        = pyRound3 ((score_with_all_llms callLLM configs prompt).1.drift_list.sum
            / (configs.length : ℚ)) := by
  obtain ⟨hc, hv, ha, hd⟩ := fanout_lists (fun cfg => callLLM cfg prompt) configs
  have hF : (score_with_all_llms callLLM configs prompt).1
      = fanout (fun cfg => callLLM cfg prompt) configs := rfl
  have hvne : ¬(fanout (fun cfg => callLLM cfg prompt) configs).vis_list = [] := by
    rw [hv]
    simpa using hne
  refine ⟨?_, ?_, ?_⟩
  · have hdef : (score_with_all_llms callLLM configs prompt).2.visibility
        = pyRound3 (if (fanout (fun cfg => callLLM cfg prompt) configs).vis_list = []
            then 0
            else (fanout (fun cfg => callLLM cfg prompt) configs).vis_list.sum
              / (((fanout (fun cfg => callLLM cfg prompt) configs).vis_list.length : ℕ) : ℚ)) := rfl
    rw [hF, hdef, if_neg hvne, hv, List.length_map]
  · have hdef : (score_with_all_llms callLLM configs prompt).2.accuracy
        = pyRound3 (if (fanout (fun cfg => callLLM cfg prompt) configs).vis_list = []
            then 0
            else (fanout (fun cfg => callLLM cfg prompt) configs).acc_list.sum
              / (((fanout (fun cfg => callLLM cfg prompt) configs).acc_list.length : ℕ) : ℚ)) := rfl
    rw [hF, hdef, if_neg hvne, ha, List.length_map]
  · have hdef : (score_with_all_llms callLLM configs prompt).2.drift
        = pyRound3 (if (fanout (fun cfg => callLLM cfg prompt) configs).vis_list = []
            then 0
            else (fanout (fun cfg => callLLM cfg prompt) configs).drift_list.sum
              / (((fanout (fun cfg => callLLM cfg prompt) configs).drift_list.length : ℕ) : ℚ)) := rfl
    rw [hF, hdef, if_neg hvne, hd, List.length_map]

/-- Claim C1: for every client, the aggregate visibility, accuracy and
drift returned by `score_with_all_llms` are the unweighted arithmetic means
of the corresponding per-provider score fields over all configured
providers, rounded to three decimals; the number of scores averaged always
equals the number of configured providers (a failed provider contributes
its zero score to the numerator and is counted in the denominator).  In
particular, with exactly two providers returning (0.8, 0.6, 0.1) and
(0.4, 0.9, 0.3) the aggregates are 0.6, 0.75, 0.2, and with the second
provider failing they are 0.4, 0.3, 0.05 over the same denominator 2. -/
theorem claim_c1_aggregates_are_rounded_means (env : Env)
    (att : LLMConfig → String → LLMAttempt) (configs : List LLMConfig) (prompt : String) :
    ((score_with_all_llms (fun cfg p => call_llm env cfg (att cfg p)) configs prompt).1.vis_list.length
        = configs.length ∧
     (score_with_all_llms (fun cfg p => call_llm env cfg (att cfg p)) configs prompt).1.acc_list.length
        = configs.length ∧
     (score_with_all_llms (fun cfg p => call_llm env cfg (att cfg p)) configs prompt).1.drift_list.length
        = configs.length) ∧
    (configs ≠ [] →
      (score_with_all_llms (fun cfg p => call_llm env cfg (att cfg p)) configs prompt).2.visibility
        = pyRound3
            ((score_with_all_llms (fun cfg p => call_llm env cfg (att cfg p)) configs prompt).1.vis_list.sum
              / (configs.length : ℚ)) ∧
      (score_with_all_llms (fun cfg p => call_llm env cfg (att cfg p)) configs prompt).2.accuracy
        = pyRound3
            ((score_with_all_llms (fun cfg p => call_llm env cfg (att cfg p)) configs prompt).1.acc_list.sum
              / (configs.length : ℚ)) ∧
      (score_with_all_llms (fun cfg p => call_llm env cfg (att cfg p)) configs prompt).2.drift
        = pyRound3
            ((score_with_all_llms (fun cfg p => call_llm env cfg (att cfg p)) configs prompt).1.drift_list.sum
              / (configs.length : ℚ))) ∧
    ((score_with_all_llms (fun cfg p => call_llm envFull cfg (exAttempts cfg p)) [cfgA, cfgB] "p").2.visibility
        = 0.6 ∧
     (score_with_all_llms (fun cfg p => call_llm envFull cfg (exAttempts cfg p)) [cfgA, cfgB] "p").2.accuracy
        = 0.75 ∧
     (score_with_all_llms (fun cfg p => call_llm envFull cfg (exAttempts cfg p)) [cfgA, cfgB] "p").2.drift
        = 0.2) ∧
    ((score_with_all_llms (fun cfg p => call_llm envFull cfg (exAttemptsFail cfg p)) [cfgA, cfgB] "p").1.vis_list
        = [0.8, 0] ∧
     (score_with_all_llms (fun cfg p => call_llm envFull cfg (exAttemptsFail cfg p)) [cfgA, cfgB] "p").2.visibility
        = 0.4 ∧
     (score_with_all_llms (fun cfg p => call_llm envFull cfg (exAttemptsFail cfg p)) [cfgA, cfgB] "p").2.accuracy
        = 0.3 ∧
     (score_with_all_llms (fun cfg p => call_llm envFull cfg (exAttemptsFail cfg p)) [cfgA, cfgB] "p").2.drift
        = 0.05) := by
  refine ⟨score_list_lengths _ configs prompt,
    fun hne => score_agg_means _ configs prompt hne,
    ⟨by decide, by decide, by decide⟩,
    ⟨by decide, by decide, by decide, by decide⟩⟩

/-- Witness for C1 at the concrete two-provider input, discharging the
nonemptiness hypothesis of the mean characterization. -/
theorem claim_c1_witness :
    ([cfgA, cfgB] : List LLMConfig) ≠ [] ∧
    (score_with_all_llms (fun cfg p => call_llm envFull cfg (exAttempts cfg p)) [cfgA, cfgB] "p").2.visibility
      = pyRound3
          ((score_with_all_llms (fun cfg p => call_llm envFull cfg (exAttempts cfg p)) [cfgA, cfgB] "p").1.vis_list.sum
            / (([cfgA, cfgB] : List LLMConfig).length : ℚ)) :=
  ⟨by decide,
    ((claim_c1_aggregates_are_rounded_means envFull exAttempts [cfgA, cfgB] "p").2.1
      (by decide)).1⟩

/-- Claim C9: the breakdown string is the concatenation, in configured
provider order, of one entry `name: v=.., a=.., d=..` per provider (numbers
formatted to two decimals by `fmt2`), joined by " | " — provided the
configured provider names are distinct, as they are in `LLM_CONFIGS` (with
duplicate names the `per_llm` dict would collapse entries).  For providers
"A" and "B" with scores (0.80,0.70,0.10) and (0.60,0.90,0.30) it equals
"A: v=0.80, a=0.70, d=0.10 | B: v=0.60, a=0.90, d=0.30". -/
theorem claim_c9_breakdown_format (callLLM : LLMConfig → String → ProviderScore)
    (configs : List LLMConfig) (prompt : String)
    (hnd : (configs.map LLMConfig.name).Nodup) :
    (score_with_all_llms callLLM configs prompt).2.breakdown
      = String.intercalate " | "
          (configs.map (fun cfg => bdEntry cfg.name (callLLM cfg prompt))) ∧
    (LLM_CONFIGS.map LLMConfig.name).Nodup ∧
    (∀ name s, bdEntry name s
      = name ++ ": v=" ++ fmt2 s.visibility ++ ", a=" ++ fmt2 s.accuracy
          ++ ", d=" ++ fmt2 s.drift) ∧
    (score_with_all_llms
        (fun cfg _ => if cfg.name = "A" then ⟨0.8, 0.7, 0.1, ""⟩ else ⟨0.6, 0.9, 0.3, ""⟩)
        [cfgA, cfgB] "p").2.breakdown
      = "A: v=0.80, a=0.70, d=0.10 | B: v=0.60, a=0.90, d=0.30" := by
  refine ⟨?_, by decide, fun name s => rfl, by decide⟩
  have hdef : (score_with_all_llms callLLM configs prompt).2.breakdown
      = String.intercalate " | "
          ((fanout (fun cfg => callLLM cfg prompt) configs).per_llm.map
            (fun p => bdEntry p.1 p.2)) := rfl
  rw [hdef, fanout_per_llm (fun cfg => callLLM cfg prompt) configs hnd, List.map_map]
  rfl

/-- Witness for C9 at the concrete two-provider input, discharging the
distinct-names hypothesis. -/
theorem claim_c9_witness :
    (([cfgA, cfgB] : List LLMConfig).map LLMConfig.name).Nodup ∧
    (score_with_all_llms
        (fun cfg _ => if cfg.name = "A" then ⟨0.8, 0.7, 0.1, ""⟩ else ⟨0.6, 0.9, 0.3, ""⟩)
        [cfgA, cfgB] "p").2.breakdown
      = String.intercalate " | "
          ([cfgA, cfgB].map (fun cfg => bdEntry cfg.name
            ((fun (cfg : LLMConfig) (_ : String) =>
              if cfg.name = "A" then (⟨0.8, 0.7, 0.1, ""⟩ : ProviderScore)
              else ⟨0.6, 0.9, 0.3, ""⟩) cfg "p"))) :=
  ⟨by decide,
    (claim_c9_breakdown_format
      (fun cfg _ => if cfg.name = "A" then ⟨0.8, 0.7, 0.1, ""⟩ else ⟨0.6, 0.9, 0.3, ""⟩)
      [cfgA, cfgB] "p" (by decide)).1⟩

theorem run_cycle_skip (callLLM : LLMConfig → String → ProviderScore)
    (sink : String → AggScores → Except String Unit) (c : Client) (rest : List Client)
    (h : pageIdFalsy c.notion_page_id = true) :
    run_cycle callLLM sink (c :: rest)
      = (CycleEvent.scored (c.name.getD "Unknown") (build_prompt c)
            (score_with_all_llms callLLM LLM_CONFIGS (build_prompt c)).1.calls
          :: CycleEvent.skippedMissing (c.name.getD "Unknown")
          :: (run_cycle callLLM sink rest).1,
         (run_cycle callLLM sink rest).2) := by
  simp only [run_cycle, h]
  simp

theorem run_cycle_fail (callLLM : LLMConfig → String → ProviderScore)
    (sink : String → AggScores → Except String Unit) (c : Client) (rest : List Client)
    (pid e : String) (hpid : c.notion_page_id = some pid) (hne : ¬pid = "")
    (hfail : sink pid (score_with_all_llms callLLM LLM_CONFIGS (build_prompt c)).2 = .error e) :
    run_cycle callLLM sink (c :: rest)
      = ([CycleEvent.scored (c.name.getD "Unknown") (build_prompt c)
            (score_with_all_llms callLLM LLM_CONFIGS (build_prompt c)).1.calls,
          CycleEvent.sinkPatch pid (score_with_all_llms callLLM LLM_CONFIGS (build_prompt c)).2],
         some e) := by
  have hf : pageIdFalsy c.notion_page_id = false := by
    rw [hpid]
    simp [pageIdFalsy, hne]
  simp only [run_cycle, hf, hpid]
  simp only [Option.getD_some, Bool.false_eq_true, if_false]
  rw [hfail]
  simp [pageIdFalsy, hne]

theorem run_cycle_ok (callLLM : LLMConfig → String → ProviderScore)
    (sink : String → AggScores → Except String Unit) (c : Client) (rest : List Client)
    (pid : String) (hpid : c.notion_page_id = some pid) (hne : ¬pid = "")
    (hok : sink pid (score_with_all_llms callLLM LLM_CONFIGS (build_prompt c)).2 = .ok ()) :
    run_cycle callLLM sink (c :: rest)
      = (CycleEvent.scored (c.name.getD "Unknown") (build_prompt c)
            (score_with_all_llms callLLM LLM_CONFIGS (build_prompt c)).1.calls
          :: CycleEvent.sinkPatch pid (score_with_all_llms callLLM LLM_CONFIGS (build_prompt c)).2
          :: (run_cycle callLLM sink rest).1,
         (run_cycle callLLM sink rest).2) := by
  have hf : pageIdFalsy c.notion_page_id = false := by
    rw [hpid]
    simp [pageIdFalsy, hne]
  simp only [run_cycle, hf, hpid]
  simp only [Option.getD_some, Bool.false_eq_true, if_false]
  rw [hok]
  simp [pageIdFalsy, hne]

/-- A client with a valid tracking row id "p1". -/
def clientOne : Client := ⟨some "One", Option.none, Option.none, Option.none, some "p1"⟩

/-- A client with a valid tracking row id "p2". -/
def clientTwo : Client := ⟨some "Two", Option.none, Option.none, Option.none, some "p2"⟩

/-- A client whose `notion_page_id` is unset. -/
def clientNoId : Client := ⟨some "NoId", Option.none, Option.none, Option.none, Option.none⟩

/-- A provider oracle returning the zero score for every call. -/
def zeroOracle : LLMConfig → String → ProviderScore := fun _ _ => ⟨0, 0, 0, ""⟩

/-- A Tracker Sink whose every PATCH succeeds. -/
def okSink : String → AggScores → Except String Unit := fun _ _ => .ok ()

/-- A Tracker Sink that answers the PATCH for page "p1" with a non-success
status (raised by `raise_for_status`) and succeeds for every other page. -/
def failP1Sink : String → AggScores → Except String Unit := fun pid _ =>
  if pid = "p1" then .error "HTTPError: 500 Server Error" else .ok ()

/-- Checks whether an event is a sink PATCH. -/
def isSinkPatch : CycleEvent → Bool
  | CycleEvent.sinkPatch _ _ => true
  | _ => false

/-- Checks whether an event is a sink PATCH for the given page id. -/
def isSinkPatchFor (pid : String) : CycleEvent → Bool
  | CycleEvent.sinkPatch p _ => p = pid
  | _ => false

/-- Checks whether an event mentions the given client name or page id. -/
def mentions (n pid : String) : CycleEvent → Bool
  | CycleEvent.scored m _ _ => m = n
  | CycleEvent.skippedMissing m => m = n
  | CycleEvent.sinkPatch p _ => p = pid

/-- Counterexample to claim C4 as stated: with a Tracker Sink returning a
non-success response for client One's update, the run aborts — the trace
ends after One's failed PATCH with the propagated error, it has no event at
all for client Two (no scoring, no skip, no PATCH for page "p2"), although
Two has a valid id and comes later in the same run. -/
theorem claim_c4_counterexample :
    (run_cycle zeroOracle failP1Sink [clientOne, clientTwo]).2
        = some "HTTPError: 500 Server Error" ∧
    ((run_cycle zeroOracle failP1Sink [clientOne, clientTwo]).1.all
        (fun ev => !(mentions "Two" "p2" ev))) = true ∧
    (run_cycle zeroOracle failP1Sink [clientOne, clientTwo]).1.length = 2 :=
  ⟨by decide, by decide, by decide⟩

/-- Claim C4 (amended): when the Tracker Sink returns a non-success
response to one client's update, the error is propagated to the caller and
the run aborts: the PATCH for that client is issued and fails, and no
subsequent client is processed — the result does not depend on the
remaining client list at all (the source has no `try/except` around
`notion_update`; spec §5/§7 flag per-client isolation as a recommended
correction, not current behavior). -/
theorem claim_c4_amended_sink_failure_aborts (callLLM : LLMConfig → String → ProviderScore)
    (sink : String → AggScores → Except String Unit) (c : Client) (rest rest' : List Client)
    (pid e : String) (hpid : c.notion_page_id = some pid) (hne : ¬pid = "")
    (hfail : sink pid (score_with_all_llms callLLM LLM_CONFIGS (build_prompt c)).2 = .error e) :
    run_cycle callLLM sink (c :: rest)
      = ([CycleEvent.scored (c.name.getD "Unknown") (build_prompt c)
            (score_with_all_llms callLLM LLM_CONFIGS (build_prompt c)).1.calls,
          CycleEvent.sinkPatch pid (score_with_all_llms callLLM LLM_CONFIGS (build_prompt c)).2],
         some e) ∧
    run_cycle callLLM sink (c :: rest) = run_cycle callLLM sink (c :: rest') :=
  ⟨run_cycle_fail callLLM sink c rest pid e hpid hne hfail,
   (run_cycle_fail callLLM sink c rest pid e hpid hne hfail).trans
     (run_cycle_fail callLLM sink c rest' pid e hpid hne hfail).symm⟩

/-- Witness for the amended C4 at the concrete failing-sink input. -/
theorem claim_c4_witness :
    clientOne.notion_page_id = some "p1" ∧ ¬("p1" : String) = "" ∧
    failP1Sink "p1" (score_with_all_llms zeroOracle LLM_CONFIGS (build_prompt clientOne)).2
      = .error "HTTPError: 500 Server Error" ∧
    (run_cycle zeroOracle failP1Sink [clientOne, clientTwo]).2
      = some "HTTPError: 500 Server Error" :=
  ⟨rfl, by decide, rfl, by
    have h := (claim_c4_amended_sink_failure_aborts zeroOracle failP1Sink clientOne
      [clientTwo] [] "p1" "HTTPError: 500 Server Error" rfl (by decide) rfl).1
    rw [h]⟩

/-- Claim C7: a client whose `notion_page_id` is unset (or empty) is
skipped: its own events are exactly the scoring fan-out followed by the
skip log line — no Tracker Sink request is issued for it — and the rest of
the run is processed exactly as if the loop continued, so every other
client with a valid id still receives its update.  Concretely, in a run
with a missing-id client followed by a valid client "p2", the trace
contains the skip log line, exactly one sink PATCH, and that PATCH is for
"p2". -/
theorem claim_c7_missing_id_never_blocks_others (callLLM : LLMConfig → String → ProviderScore)
    (sink : String → AggScores → Except String Unit) (c : Client) (rest : List Client)
    (h : pageIdFalsy c.notion_page_id = true) :
    run_cycle callLLM sink (c :: rest)
      = (CycleEvent.scored (c.name.getD "Unknown") (build_prompt c)
            (score_with_all_llms callLLM LLM_CONFIGS (build_prompt c)).1.calls
          :: CycleEvent.skippedMissing (c.name.getD "Unknown")
          :: (run_cycle callLLM sink rest).1,
         (run_cycle callLLM sink rest).2) ∧
    ((run_cycle zeroOracle okSink [clientNoId, clientTwo]).1.any
        (fun ev => ev = CycleEvent.skippedMissing "NoId")) = true ∧
    ((run_cycle zeroOracle okSink [clientNoId, clientTwo]).1.filter isSinkPatch).length = 1 ∧
    ((run_cycle zeroOracle okSink [clientNoId, clientTwo]).1.any
        (isSinkPatchFor "p2")) = true :=
  ⟨run_cycle_skip callLLM sink c rest h, by decide, by decide, by decide⟩

/-- Witness for C7 at the concrete missing-id input. -/
theorem claim_c7_witness :
    pageIdFalsy clientNoId.notion_page_id = true ∧
    run_cycle zeroOracle okSink [clientNoId]
      = (CycleEvent.scored "NoId" (build_prompt clientNoId)
            (score_with_all_llms zeroOracle LLM_CONFIGS (build_prompt clientNoId)).1.calls
          :: CycleEvent.skippedMissing "NoId"
          :: (run_cycle zeroOracle okSink []).1,
         (run_cycle zeroOracle okSink []).2) :=
  ⟨rfl, (claim_c7_missing_id_never_blocks_others zeroOracle okSink clientNoId [] rfl).1⟩

/-- Claim C10: for a client whose `notion_page_id` is unset, the prompt is
still built (`build_prompt`) and every configured provider is still called
— the first trace event records one `call_llm` invocation per entry of
`LLM_CONFIGS`, in order, on the built prompt — and only then is the client
skipped: the missing-id check runs after the scoring fan-out. -/
theorem claim_c10_scoring_happens_before_skip (callLLM : LLMConfig → String → ProviderScore)
    (sink : String → AggScores → Except String Unit) (c : Client) (rest : List Client)
    (h : pageIdFalsy c.notion_page_id = true) :
    (run_cycle callLLM sink (c :: rest)).1.take 2
      = [CycleEvent.scored (c.name.getD "Unknown") (build_prompt c)
           (LLM_CONFIGS.map (fun cfg => (cfg.name, callLLM cfg (build_prompt c)))),
         CycleEvent.skippedMissing (c.name.getD "Unknown")] ∧
    (LLM_CONFIGS.map (fun cfg => (cfg.name, callLLM cfg (build_prompt c)))).length
      = LLM_CONFIGS.length := by
  constructor
  · rw [run_cycle_skip callLLM sink c rest h]
    have hF : (score_with_all_llms callLLM LLM_CONFIGS (build_prompt c)).1
        = fanout (fun cfg => callLLM cfg (build_prompt c)) LLM_CONFIGS := rfl
    have hc := (fanout_lists (fun cfg => callLLM cfg (build_prompt c)) LLM_CONFIGS).1
    simp only [List.take_succ_cons, List.take_zero]
    rw [hF, hc]
  · exact List.length_map LLM_CONFIGS _

/-- Witness for C10 at the concrete missing-id input. -/
theorem claim_c10_witness :
    pageIdFalsy clientNoId.notion_page_id = true ∧
    (run_cycle zeroOracle okSink [clientNoId]).1.take 2
      = [CycleEvent.scored "NoId" (build_prompt clientNoId)
           (LLM_CONFIGS.map (fun cfg => (cfg.name, zeroOracle cfg (build_prompt clientNoId)))),
         CycleEvent.skippedMissing "NoId"] :=
  ⟨rfl, (claim_c10_scoring_happens_before_skip zeroOracle okSink clientNoId [] rfl).1⟩

/-- A legacy-shaped Client Source document: the top-level document is
itself the list of client entries. -/
def docLegacy : PyVal := .list [.dict [("name", .str "Acme")]]

/-- Counterexample to claim C6 as stated: on a document whose top level is
a list of client entries, the scoring pipeline's loader (`load_clients`)
does not succeed — `"clients" not in data` is list membership in Python, so
it raises ValueError — while the provisioning routine's loader does yield
the list. -/
theorem claim_c6_counterexample :
    load_clients docLegacy = .error "ValueError: Unexpected clients.yaml structure" ∧
    update_clients_yaml_clients docLegacy = .ok (.list [.dict [("name", .str "Acme")]]) :=
  ⟨rfl, rfl⟩

/-- Claim C6 (amended): only the provisioning routine's loader tolerates
the legacy shape.  For any top-level-list document (whose entries are not
the literal string "clients", as client entries are mappings), the
provisioning loader yields exactly that list as the clients, while the
scoring pipeline's `load_clients` rejects the document with its ValueError
(`"clients" not in data` performs element membership on a list). -/
theorem claim_c6_amended_only_provisioning_tolerates_legacy (xs : List PyVal)
    (hany : xs.any (fun v => pyEqStr v "clients") = false) :
    load_clients (.list xs) = .error "ValueError: Unexpected clients.yaml structure" ∧
    update_clients_yaml_clients (.list xs) = .ok (.list xs) := by
  constructor
  · cases xs with
    | nil => rfl
    | cons y ys =>
      simp only [load_clients, pyTruthy, pyContains, List.isEmpty_cons, Bool.not_false,
        if_true, hany]
      rfl
  · cases xs with
    | nil => rfl
    | cons y ys => rfl

/-- Witness for the amended C6 at the concrete legacy document. -/
theorem claim_c6_witness :
    ([PyVal.dict [("name", PyVal.str "Acme")]].any (fun v => pyEqStr v "clients") = false) ∧
    update_clients_yaml_clients (.list [.dict [("name", .str "Acme")]])
      = .ok (.list [.dict [("name", .str "Acme")]]) :=
  ⟨rfl,
    (claim_c6_amended_only_provisioning_tolerates_legacy
      [PyVal.dict [("name", PyVal.str "Acme")]] rfl).2⟩

/-- The drift-check scenario rows of the spec: drift scores 0.5, 0.2, 0.6,
none with status "System". -/
def rowsHigh : List DriftRow :=
  [⟨["a"], "Active", some 0.5, some 10.5⟩,
   ⟨["b"], "Active", some 0.2, some 3⟩,
   ⟨["c"], "Active", some 0.6, some 7⟩]

/-- Rows all below the drift threshold (or with status "System"). -/
def rowsLow : List DriftRow :=
  [⟨["a"], "Active", some 0.3, some 1⟩, ⟨["b"], "System", some 0.9, some 1⟩]

/-- Claim C8: the drift check reports exactly the rows whose status is not
"System" and whose drift score is at least the fixed threshold 0.4; it
prints each matching row as
`- <name>: drift=<value>, monthly=<value>` and exits with status 1 when any
row matched, with status 0 otherwise.  Concretely, for drift scores
[0.5, 0.2, 0.6] exactly the 0.5 and 0.6 rows are reported with exit 1, and
with all rows below 0.4 (or of status "System") it exits 0. -/
theorem claim_c8_drift_check (db : List DriftRow) :
    check_drift_main db
      = ((query_high_drift db 0.4).map driftLine,
         if query_high_drift db 0.4 = [] then 0 else 1) ∧
    (∀ r, r ∈ db →
      (r ∈ query_high_drift db 0.4 ↔
        (¬r.status = "System" ∧ ∃ d, r.drift = some d ∧ (0.4 : ℚ) ≤ d))) ∧
    check_drift_main rowsHigh
      = (["- a: drift=0.5, monthly=10.5", "- c: drift=0.6, monthly=7.0"], 1) ∧
    check_drift_main rowsLow = ([], 0) := by
  refine ⟨?_, ?_, by decide, by decide⟩
  · have hdef : check_drift_main db
        = (if (query_high_drift db (0.4 : ℚ)).isEmpty then ([], 0)
           else ((query_high_drift db (0.4 : ℚ)).map driftLine, 1)) := rfl
    rw [hdef]
    rcases eq_or_ne (query_high_drift db (0.4 : ℚ)) [] with hq | hq
    · rw [hq]
      rfl
    · have h1 : (query_high_drift db (0.4 : ℚ)).isEmpty = false := by
        simpa [List.isEmpty_iff] using hq
      rw [h1, if_neg hq]
      simp
  · intro r hr
    constructor
    · intro hmem
      have hf := (List.mem_filter.mp hmem).2
      cases hd : r.drift with
      | none => rw [driftFilter, hd] at hf; simp at hf
      | some d =>
        rw [driftFilter, hd] at hf
        simp only [Bool.and_eq_true, Bool.not_eq_true', decide_eq_false_iff_not,
          decide_eq_true_eq] at hf
        exact ⟨hf.1, d, rfl, hf.2⟩
    · rintro ⟨h1, d, hd, hge⟩
      refine List.mem_filter.mpr ⟨hr, ?_⟩
      rw [driftFilter, hd]
      simp [h1, hge]

/-- Witness for C8: the 0.5-drift row of the concrete scenario satisfies
the membership characterization. -/
theorem claim_c8_witness :
    (⟨["a"], "Active", some 0.5, some 10.5⟩ : DriftRow) ∈ rowsHigh ∧
    ((⟨["a"], "Active", some 0.5, some 10.5⟩ : DriftRow) ∈ query_high_drift rowsHigh 0.4 ↔
      (¬(DriftRow.status ⟨["a"], "Active", some 0.5, some 10.5⟩) = "System" ∧
        ∃ d, (DriftRow.drift ⟨["a"], "Active", some 0.5, some 10.5⟩) = some d ∧ (0.4 : ℚ) ≤ d)) :=
  ⟨by decide, (claim_c8_drift_check rowsHigh).2.1 _ (by decide)⟩
